import Mathlib

/-!
Verification development for the KuberAI_Simulation backend
(`app/main.py`, `app/schemas.py`, `app/models.py`).

The Python code is shallowly embedded: pure helpers become Lean functions,
Python `float` values become `ℚ` (exact rationals; the float claims under
test are exact at these magnitudes), Python exceptions become explicit
`Except` error values, and the two outbound network effects (gold-price
API, LLM) become explicit parameters describing their observable outcome.
-/

namespace KuberAI

/-- Round-half-to-even on an exact rational, the rounding rule of Python 3
`round` (banker's rounding). -/
def roundHalfEven (q : ℚ) : ℤ :=
  let f : ℤ := ⌊q⌋
  let r : ℚ := q - (f : ℚ)
  if r < 1/2 then f
  else if 1/2 < r then f + 1
  else if f % 2 = 0 then f else f + 1

/-- Model of Python `round(x, n)` on an exact rational: round `x * 10^n`
half-to-even and scale back. -/
def pyRound (n : ℕ) (q : ℚ) : ℚ := ((roundHalfEven (q * 10 ^ n) : ℚ)) / 10 ^ n

/-- One entry of the backup price series as consumed by the price helpers:
a calendar date (encoded as an ordinal `ℕ`, preserving the order that
`datetime.fromisoformat` induces on ISO date strings) and a price in INR
per gram. -/
structure PricePoint where
  date : ℕ
  price : ℚ
deriving DecidableEq, Repr

/-- Model of the Python slice `l[-period:]`: for `period = 0` Python yields
the whole list (`l[-0:] = l[0:]`), otherwise the trailing `period` elements
(the whole list when it is shorter than `period`). -/
def pySliceLast {α : Type} (l : List α) (period : ℕ) : List α :=
  if period = 0 then l else l.drop (l.length - period)

/-- Embedding of `analyze_trend` (main.py lines 83-91): percentage change
over the trailing `period` entries. Python would raise `ZeroDivisionError`
when the start price is 0; in `ℚ` the division then yields 0, so theorems
about this function carry the positivity hypothesis under which the two
semantics agree. -/
def analyze_trend (history : List PricePoint) (period : ℕ) : ℚ :=
  if history.length < 2 then 0
  else
    let recent_prices := (pySliceLast history period).map (fun e => e.price)
    let start_price := recent_prices.headI
    let end_price := recent_prices.getLastI
    ((end_price - start_price) / start_price) * 100

/-- Lowercased character list of a question, the form on which all keyword
matching operates (`question.lower()`; ASCII case folding suffices for the
keyword sets in the source). -/
def lcs (s : String) : List Char := s.data.map Char.toLower

/-- Checks whether `pat` is a prefix of `s`, returning the remaining
suffix on success. -/
def prefixRest : List Char → List Char → Option (List Char)
  | [], rest => some rest
  | _ :: _, [] => none
  | p :: ps, c :: cs => if p = c then prefixRest ps cs else none

/-- Model of the Python substring test `pat in s` on character lists. -/
def containsSub : List Char → List Char → Bool
  | pat, [] => pat.isEmpty
  | pat, s@(_ :: cs) => (prefixRest pat s).isSome || containsSub pat cs

/-- Whether any keyword of `kws` occurs as a substring of `q`, the
`any(k in q for k in kws)` pattern of the source. -/
def anyKeyword (kws : List String) (q : List Char) : Bool :=
  kws.any (fun k => containsSub k.data q)

/-- Embedding of `_keyword_classify` (main.py lines 117-125). -/
def keyword_classify (question : String) : String :=
  let q := lcs question
  if anyKeyword ["price", "rate", "current", "today"] q then "current_price"
  else if anyKeyword ["history", "past", "last", "trend"] q then "history"
  else if anyKeyword ["predict", "forecast", "future", "will"] q then "prediction"
  else "general_info"

/-- Python regex word character (`\w` for the ASCII questions under test):
alphanumeric or underscore. -/
def isWordChar (c : Char) : Bool := c.isAlphanum || c = '_'

/-- Whether `pat` occurs in `s` delimited by `\b` word boundaries on both
sides, given the character immediately preceding `s` (`none` at the start
of the text). `pat` starts and ends with word characters in all uses, so a
boundary holds exactly when the neighbouring character is absent or not a
word character. -/
def wordBounded (pat : List Char) : Option Char → List Char → Bool
  | prev, [] =>
    (match prefixRest pat [] with
     | some _ => (match prev with | none => true | some c => !isWordChar c)
     | none => false)
  | prev, s@(c :: cs) =>
    (match prefixRest pat s with
     | some rest =>
       (match prev with | none => true | some p => !isWordChar p) &&
       (match rest with | [] => true | r :: _ => !isWordChar r)
     | none => false) || wordBounded pat (some c) cs

/-- Embedding of `_is_gold_by_keyword` (main.py lines 127-128): the regex
`\bgold\b|\bdigital gold\b|\bxau\b` with `re.I`, modelled as whole-word
search over the lowercased text (case-insensitive matching of these ASCII
patterns coincides with matching on the lowercased string). -/
def is_gold_by_keyword (question : String) : Bool :=
  let q := lcs question
  wordBounded "gold".data none q ||
  wordBounded "digital gold".data none q ||
  wordBounded "xau".data none q

/-- Renders `m % 100` as exactly two digits. -/
def twoDigits (m : ℕ) : String :=
  (if m % 100 < 10 then "0" else "") ++ toString (m % 100)

/-- Model of the Python format `f"{q:.2f}"` on an exact rational: round to
two decimal places (half-to-even, as float formatting does) and print with
exactly two fractional digits. -/
def format2 (q : ℚ) : String :=
  let n : ℤ := roundHalfEven (q * 100)
  (if n < 0 then "-" else "") ++ toString (n.natAbs / 100) ++ "." ++ twoDigits n.natAbs

/-- Embedding of the inner `trend_phrase` of `generate_trend_text`
(main.py lines 101-107). -/
def trend_phrase (change : ℚ) : String :=
  if change > 1/10 then "increased by " ++ format2 change ++ "%"
  else if change < -(1/10) then "decreased by " ++ format2 |change| ++ "%"
  else "been relatively stable"

/-- Embedding of `generate_trend_text` (main.py lines 93-109). -/
def generate_trend_text (history : List PricePoint) : String :=
  if history.isEmpty then "No sufficient data to determine trend."
  else
    let short_term := analyze_trend history 7
    let long_term := analyze_trend history (if 30 ≤ history.length then 30 else history.length)
    "Gold prices have " ++ trend_phrase short_term ++
      " over the last 7 days and have " ++ trend_phrase long_term ++
      " over the last 30 days."

/-- A decoded JSON value, the possible results of `json.load` on the
backup snapshot file. -/
inductive JVal where
  | null
  | boolean (b : Bool)
  | num (q : ℚ)
  | str (s : String)
  | arr (items : List JVal)
  | obj (fields : List (String × JVal))

/-- The Python exceptions the backup loader can raise past its handler
(which catches only `FileNotFoundError` and `json.JSONDecodeError`). -/
inductive PyExc where
  | typeError
  | keyError
  | valueError
deriving DecidableEq, Repr

/-- Decimal value of a digit character, if it is one. -/
def digitVal (c : Char) : Option ℕ :=
  if c.isDigit then some (c.toNat - 48) else none

/-- Model of `datetime.fromisoformat` restricted to the `YYYY-MM-DD`
date-only form the snapshot uses, returning the date as the ordinal
`y * 10000 + m * 100 + d` (which orders exactly as the dates do). Strings
not of this shape, or with an out-of-range month or day, fail to parse
(Python raises `ValueError`). -/
def parseIsoDate (s : String) : Option ℕ :=
  match s.data with
  | [y1, y2, y3, y4, h1, m1, m2, h2, d1, d2] =>
    if h1 = '-' ∧ h2 = '-' then
      match digitVal y1, digitVal y2, digitVal y3, digitVal y4,
            digitVal m1, digitVal m2, digitVal d1, digitVal d2 with
      | some a, some b, some c, some d, some e, some f, some g, some h =>
        let y := ((a * 10 + b) * 10 + c) * 10 + d
        let m := e * 10 + f
        let dy := g * 10 + h
        if 1 ≤ m ∧ m ≤ 12 ∧ 1 ≤ dy ∧ dy ≤ 31 then some (y * 10000 + m * 100 + dy)
        else none
      | _, _, _, _, _, _, _, _ => none
    else none
  | _ => none

/-- Model of the sort key `datetime.fromisoformat(x['date'])` applied to
one decoded entry: subscripting a non-object raises `TypeError`, a missing
`date` key raises `KeyError`, `fromisoformat` of a non-string raises
`TypeError` and of an unparseable string raises `ValueError`. -/
def keyOf (v : JVal) : Except PyExc ℕ :=
  match v with
  | .obj fields =>
    match fields.lookup "date" with
    | some (.str s) =>
      match parseIsoDate s with
      | some d => .ok d
      | none => .error .valueError
    | some _ => .error .typeError
    | none => .error .keyError
  | _ => .error .typeError

/-- Computes the sort key of every entry left to right, propagating the
first exception, as `sorted(data, key=...)` does before sorting. -/
def keyedEntries : List JVal → Except PyExc (List (ℕ × JVal))
  | [] => .ok []
  | x :: xs =>
    match keyOf x with
    | .error e => .error e
    | .ok k =>
      match keyedEntries xs with
      | .error e => .error e
      | .ok rest => .ok ((k, x) :: rest)

/-- Order on keyed entries: compare the computed date keys. -/
def keyLe (a b : ℕ × JVal) : Prop := a.1 ≤ b.1

instance : DecidableRel keyLe := fun a b => Nat.decLe a.1 b.1

instance : IsTotal (ℕ × JVal) keyLe := ⟨fun a b => Nat.le_total a.1 b.1⟩

instance : IsTrans (ℕ × JVal) keyLe := ⟨fun _ _ _ => Nat.le_trans⟩

/-- Model of `sorted(entries, key=lambda x: datetime.fromisoformat(x['date']))`
on an already-materialised entry sequence: compute every key (first failure
raises) then sort by key with a stable sort. -/
def pySortedByDate (entries : List JVal) : Except PyExc (List JVal) :=
  match keyedEntries entries with
  | .error e => .error e
  | .ok kl => .ok ((kl.insertionSort keyLe).map (fun p => p.2))

/-- Observable state of the snapshot file `gold_data_backup.json`:
absent (open raises `FileNotFoundError`), present but not decodable as
JSON (`json.load` raises `json.JSONDecodeError`), or decodable to a JSON
value. Every possible on-disk content falls in exactly one case. -/
inductive BackupFile where
  | missing
  | undecodable
  | decoded (v : JVal)

/-- Embedding of `get_backup_gold_data` (main.py lines 32-38) over the
observable file state. The `except` clause catches exactly
`FileNotFoundError` and `json.JSONDecodeError`; any exception raised while
computing sort keys propagates. Iterating a decoded object yields its key
strings and iterating a decoded string yields its one-character strings,
as in Python; other non-list values are not iterable (`TypeError`). -/
def get_backup_gold_data : BackupFile → Except PyExc (List JVal)
  | .missing => .ok []
  | .undecodable => .ok []
  | .decoded v =>
    match v with
    | .arr items => pySortedByDate items
    | .obj fields => pySortedByDate (fields.map (fun kv => JVal.str kv.1))
    | .str s => pySortedByDate (s.data.map (fun c => JVal.str (String.singleton c)))
    | _ => .error .typeError

/-- Result value of `get_live_gold_price` (main.py lines 41-59): the three
dictionary shapes the function can return, as a sum type. `live` and
`backup` carry the `current_price_inr_per_gram` field; `err` carries only
the `error` message. The backup price is the raw JSON value found under
`price` in the latest entry: the code copies `latest_entry['price']` into
the result dictionary without inspecting it. -/
inductive GoldPriceResult where
  | live (current_price_inr_per_gram : ℚ)
  | backup (current_price_inr_per_gram : JVal)
  | err (msg : String)

/-- Whether the returned dictionary has a `current_price_inr_per_gram`
key. -/
def GoldPriceResult.hasCurrentPrice : GoldPriceResult → Bool
  | .live _ => true
  | .backup _ => true
  | .err _ => false

/-- The `source` tag of the returned dictionary, when present. -/
def GoldPriceResult.sourceTag : GoldPriceResult → Option String
  | .live _ => some "live"
  | .backup _ => some "backup"
  | .err _ => none

/-- Embedding of `get_live_gold_price` (main.py lines 41-59).
`apiPrice = some p` models the case where `GOLD_API_KEY` is set and the
HTTP request succeeded with a JSON body containing `price_gram_24k = p`;
`apiPrice = none` models every other case (no credential, timeout,
non-2xx, malformed JSON, missing field), all of which the `try/except`
collapses into falling through to the backup. The backup branch runs
outside that `try`, so nothing here catches: an exception escaping the
`get_backup_gold_data()` call (line 54) propagates, and so does the
subscript `latest_entry['price']` (line 57) — `TypeError` on a non-dict
entry, `KeyError` when the `price` key is absent. -/
def get_live_gold_price (apiPrice : Option ℚ) (file : BackupFile) :
    Except PyExc GoldPriceResult :=
  match apiPrice with
  | some p => .ok (.live (pyRound 2 p))
  | none =>
    match get_backup_gold_data file with
    | .error e => .error e
    | .ok backup_data =>
      match backup_data.getLast? with
      | some latest_entry =>
        match latest_entry with
        | .obj fields =>
          match fields.lookup "price" with
          | some p => .ok (.backup p)
          | none => .error .keyError
        | _ => .error .typeError
      | none => .ok (.err "Failed to fetch live gold price and backup is unavailable.")

/-- Row of the `users` table (models.py lines 5-12). -/
structure User where
  id : ℕ
  name : String
  email : String
deriving DecidableEq, Repr

/-- Row of the `transactions` table (models.py lines 15-25); the
server-assigned timestamp is irrelevant to every claim and omitted. -/
structure Transaction where
  id : ℕ
  user_id : ℕ
  amount_inr : ℚ
  grams_purchased : ℚ
  gold_price_per_gram : ℚ
deriving DecidableEq, Repr

/-- State of the relational store: the two tables, in insertion order.
Rows get auto-incremented primary keys. -/
structure DBState where
  users : List User
  transactions : List Transaction
deriving DecidableEq, Repr

/-- Body of `POST /buy-gold` (schemas.py lines 14-19). -/
structure PurchaseRequest where
  user_name : String
  user_email : String
  amount_inr : ℚ
  quoted_price_inr_per_gram : ℚ
  nudge_to_invest : Bool
deriving DecidableEq, Repr

/-- Success body of `POST /buy-gold` (schemas.py lines 21-25). -/
structure PurchaseResponse where
  success : Bool
  message : String
  transaction_id : ℕ
  grams_purchased : ℚ
deriving DecidableEq, Repr

/-- Failure outcomes of `buy_digital_gold`: an `HTTPException` raised with
an explicit status code, or the uncaught `ZeroDivisionError` that Python
raises at `request.amount_inr / price_inr_per_gram` when the quoted price
is zero (no handler catches it, so it escapes the endpoint). -/
inductive BuyError where
  | httpError (status : ℕ) (detail : String)
  | zeroDivisionError
deriving DecidableEq, Repr

/-- Auto-increment primary key for a new user row. -/
def nextUserId (db : DBState) : ℕ := db.users.length + 1

/-- Auto-increment primary key for a new transaction row. -/
def nextTxId (db : DBState) : ℕ := db.transactions.length + 1

/-- Lookup of `db.query(User).filter(User.email == ...).first()`. -/
def findUserByEmail (db : DBState) (email : String) : Option User :=
  db.users.find? (fun u => u.email == email)

/-- Rendering of the success message
`f"Purchase of {grams_purchased}g gold successful."`; the textual
interpolation of the grams figure is abstracted to an exact
numerator/denominator rendering, as no claim inspects the message text. -/
def purchaseMessage (grams : ℚ) : String :=
  "Purchase of " ++ toString grams.num ++ "/" ++ toString grams.den ++
    "g gold successful."

/-- Embedding of `buy_digital_gold` (main.py lines 262-295), with the
database threaded explicitly: returns the new store state and either the
success response or the error that the endpoint raises. -/
def buy_digital_gold (db : DBState) (request : PurchaseRequest) :
    DBState × Except BuyError PurchaseResponse :=
  if request.nudge_to_invest = false then
    (db, .error (.httpError 400 "Nudge flag is false. Purchase not allowed"))
  else
    let price_inr_per_gram := request.quoted_price_inr_per_gram
    if request.amount_inr < 10 then
      (db, .error (.httpError 400 "Minimum purchase is ₹10"))
    else if price_inr_per_gram = 0 then
      (db, .error .zeroDivisionError)
    else
      let grams_purchased := pyRound 4 (request.amount_inr / price_inr_per_gram)
      let (db1, user) :=
        match findUserByEmail db request.user_email with
        | some u => (db, u)
        | none =>
          let u : User := ⟨nextUserId db, request.user_name, request.user_email⟩
          ({ db with users := db.users ++ [u] }, u)
      let tx : Transaction :=
        ⟨nextTxId db1, user.id, request.amount_inr, grams_purchased,
          pyRound 2 price_inr_per_gram⟩
      let db2 : DBState := { db1 with transactions := db1.transactions ++ [tx] }
      (db2, .ok ⟨true, purchaseMessage grams_purchased, tx.id, grams_purchased⟩)

/-- In a list pairwise ordered by a reflexive relation, every element is
related to the entry delivered by `getLast?`. -/
theorem rel_getLast?_of_pairwise {α : Type} {R : α → α → Prop} (hrefl : ∀ a, R a a) :
    ∀ l : List α, l.Pairwise R → ∀ e : α, l.getLast? = some e → ∀ x ∈ l, R x e
  | [], _, e, he => by simp at he
  | [a], _, e, he => by
    simp [List.getLast?] at he
    intro x hx
    simp at hx
    subst hx
    subst he
    exact hrefl _
  | a :: b :: t, hp, e, he => by
    rw [List.getLast?_cons_cons] at he
    intro x hx
    rcases List.mem_cons.mp hx with rfl | hx'
    · have hem : e ∈ b :: t := by
        rcases List.mem_getLast?_eq_getLast (x := e) he with ⟨hne, heq⟩
        exact heq ▸ List.getLast_mem hne
      exact List.rel_of_pairwise_cons hp hem
    · exact rel_getLast?_of_pairwise hrefl (b :: t) hp.of_cons e he x hx'

/-- The ascending-date relation on decoded entries is reflexive: `keyOf`
is a function, so two keys computed from the same entry coincide. -/
theorem keyRel_refl (a : JVal) :
    ∀ ka kb : ℕ, keyOf a = .ok ka → keyOf a = .ok kb → ka ≤ kb := by
  intro ka kb h1 h2
  rw [h1] at h2
  exact le_of_eq (Except.ok.inj h2)

/-- Claim C2: `analyze_trend` returns 0 for series of length 0 or 1; for a
series of length at least 2 with positive prices and a positive window, it
returns `(end - start) / start * 100` over the trailing `period` entries
(the whole series when shorter than `period`); and the two concrete
examples of the spec. -/
theorem claim_C2_analyze_trend :
    (∀ (history : List KuberAI.PricePoint) (period : ℕ),
       history.length < 2 → KuberAI.analyze_trend history period = 0) ∧
    (∀ (history : List KuberAI.PricePoint) (period : ℕ),
       1 ≤ period → 2 ≤ history.length → (∀ x ∈ history, 0 < x.price) →
       KuberAI.analyze_trend history period =
         (let prices := (history.drop (history.length - period)).map (fun e => e.price)
          ((prices.getLastI - prices.headI) / prices.headI) * 100)) ∧
    KuberAI.analyze_trend [⟨1, 100⟩, ⟨2, 110⟩] 7 = 10 ∧
    KuberAI.analyze_trend [⟨1, 100⟩, ⟨2, 90⟩] 7 = -10 := by
  refine ⟨?_, ?_,
    by norm_num [KuberAI.analyze_trend, KuberAI.pySliceLast, List.getLastI],
    by norm_num [KuberAI.analyze_trend, KuberAI.pySliceLast, List.getLastI]⟩
  · intro history period hlen
    simp [KuberAI.analyze_trend, hlen]
  · intro history period hp hlen _
    have hp0 : period ≠ 0 := Nat.one_le_iff_ne_zero.mp hp
    have hnl : ¬ history.length < 2 := Nat.not_lt.mpr hlen
    simp [KuberAI.analyze_trend, KuberAI.pySliceLast, hp0, hnl]

/-- Witness for C2 at a singleton series and at a length-3 series with a
window of 2. -/
theorem claim_C2_witness :
    KuberAI.analyze_trend [⟨1, 100⟩] 7 = 0 ∧
    KuberAI.analyze_trend [⟨1, 100⟩, ⟨2, 110⟩, ⟨3, 121⟩] 2 = 10 := by
  constructor
  · exact claim_C2_analyze_trend.1 [⟨1, 100⟩] 7 (by decide)
  · have h := claim_C2_analyze_trend.2.1 [⟨1, 100⟩, ⟨2, 110⟩, ⟨3, 121⟩] 2
      (by decide) (by decide) (by decide)
    rw [h]
    norm_num [List.getLastI]

/-- All sort keys computed by a successful `keyedEntries` pass belong to
their entries. -/
theorem keyedEntries_ok_mem :
    ∀ (es : List JVal) (kl : List (ℕ × JVal)), keyedEntries es = .ok kl →
      ∀ p ∈ kl, keyOf p.2 = .ok p.1
  | [], kl, h => by
    simp [keyedEntries] at h
    subst h
    intro p hp
    simp at hp
  | x :: xs, kl, h => by
    intro p hp
    cases hk : keyOf x with
    | error e => simp [keyedEntries, hk] at h
    | ok k =>
      cases hr : keyedEntries xs with
      | error e => simp [keyedEntries, hk, hr] at h
      | ok rest =>
        simp [keyedEntries, hk, hr] at h
        subst h
        rcases List.mem_cons.mp hp with rfl | hp'
        · simpa using hk
        · exact keyedEntries_ok_mem xs rest hr p hp'

/-- A successful `pySortedByDate` result is pairwise ascending in the date
key. -/
theorem pySortedByDate_ok_pairwise (es : List JVal) (l : List JVal)
    (h : pySortedByDate es = .ok l) :
    l.Pairwise (fun a b => ∀ ka kb, keyOf a = .ok ka → keyOf b = .ok kb → ka ≤ kb) := by
  cases hke : keyedEntries es with
  | error e => simp [pySortedByDate, hke] at h
  | ok kl =>
    simp [pySortedByDate, hke] at h
    subst h
    have hsorted : List.Pairwise keyLe (kl.insertionSort keyLe) :=
      List.sorted_insertionSort keyLe kl
    have hmemkey : ∀ p ∈ kl.insertionSort keyLe, keyOf p.2 = .ok p.1 := by
      intro p hp
      exact keyedEntries_ok_mem es kl hke p ((List.mem_insertionSort keyLe).mp hp)
    refine (List.pairwise_map).mpr ?_
    refine hsorted.imp_of_mem ?_
    intro a b ha hb hab ka kb hka hkb
    have h1 : ka = a.1 := by
      have hm := hmemkey a ha
      rw [hka] at hm
      exact Except.ok.inj hm
    have h2 : kb = b.1 := by
      have hm := hmemkey b hb
      rw [hkb] at hm
      exact Except.ok.inj hm
    rw [h1, h2]
    exact hab

/-- Claim C3 counterexample: the snapshot content `[{"price": 5}]` is
well-formed JSON, so `json.JSONDecodeError` is not raised, but the sort
key lookup `x['date']` raises `KeyError`, which the handler does not
catch: an exception does propagate to the caller, refuting "no exception
ever propagates for every possible content". -/
theorem claim_C3_counterexample :
    get_backup_gold_data (.decoded (.arr [.obj [("price", .num 5)]])) =
      .error .keyError := rfl

/-- Claim C3 (amended): `get_backup_gold_data` returns the empty sequence
on a missing snapshot file and on content that fails JSON decoding, but
for some decodable contents an exception escapes it. -/
theorem claim_C3_amended_backup_errors :
    get_backup_gold_data .missing = .ok [] ∧
    get_backup_gold_data .undecodable = .ok [] ∧
    (∃ (v : JVal) (e : PyExc), get_backup_gold_data (.decoded v) = .error e) :=
  ⟨rfl, rfl, ⟨.num 3, .typeError, rfl⟩⟩

/-- Every successful output of the backup loader is pairwise ascending in
the parsed date key, for every file state. -/
theorem backup_output_pairwise (f : BackupFile) (l : List JVal)
    (h : get_backup_gold_data f = .ok l) :
    l.Pairwise (fun a b => ∀ ka kb, keyOf a = .ok ka → keyOf b = .ok kb → ka ≤ kb) := by
  cases f with
  | missing =>
    simp [get_backup_gold_data] at h
    subst h
    simp
  | undecodable =>
    simp [get_backup_gold_data] at h
    subst h
    simp
  | decoded v =>
    cases v with
    | arr items => exact pySortedByDate_ok_pairwise _ _ h
    | obj fields => exact pySortedByDate_ok_pairwise _ _ h
    | str s => exact pySortedByDate_ok_pairwise _ _ h
    | null => simp [get_backup_gold_data] at h
    | boolean b => simp [get_backup_gold_data] at h
    | num q => simp [get_backup_gold_data] at h

/-- Claim C4: every price series that `get_backup_gold_data` returns
without raising is pairwise ascending in the parsed date of its entries,
whatever the on-disk order (or shape) of the snapshot was. -/
theorem claim_C4_backup_sorted (f : BackupFile) (l : List JVal)
    (h : get_backup_gold_data f = .ok l) :
    l.Pairwise (fun a b => ∀ ka kb, keyOf a = .ok ka → keyOf b = .ok kb → ka ≤ kb) :=
  backup_output_pairwise f l h

/-- Witness for C4: a two-entry snapshot stored in descending date order
comes back ascending. -/
theorem claim_C4_witness :
    List.Pairwise (fun a b => ∀ ka kb, keyOf a = .ok ka → keyOf b = .ok kb → ka ≤ kb)
      [JVal.obj [("date", JVal.str "2024-01-02"), ("price", JVal.num 100)],
       JVal.obj [("date", JVal.str "2024-01-05"), ("price", JVal.num 110)]] :=
  claim_C4_backup_sorted
    (.decoded (.arr [JVal.obj [("date", JVal.str "2024-01-05"), ("price", JVal.num 110)],
                     JVal.obj [("date", JVal.str "2024-01-02"), ("price", JVal.num 100)]]))
    _ rfl

/-- Claim C1 counterexample: with no credential and a decodable snapshot
whose single entry carries a date but no `price` key, the backup loader
succeeds, the fallback picks that entry, and the subscript
`latest_entry['price']` at line 57 raises an uncaught `KeyError`:
`getCurrentPrice` does raise an exception, refuting the claim's "never
raises an exception" conjunct. -/
theorem claim_C1_counterexample :
    get_live_gold_price none
      (.decoded (.arr [.obj [("date", .str "2024-01-03")]])) =
      .error .keyError := rfl

/-- Claim C1 (amended): when the live API call fails or no API credential
is present, `get_live_gold_price` propagates any exception the backup
loader raises; given a loaded non-empty backup series, its last entry has
the maximal date, and the function returns the value stored under that
entry's `price` key tagged `source=backup` when the key exists, raising
`KeyError` when it does not; and when the loaded backup series is empty
it returns the error-tagged value, which carries no
`current_price_inr_per_gram` field. -/
theorem claim_C1_amended_fallback (file : BackupFile) :
    (∀ exc : PyExc, get_backup_gold_data file = .error exc →
       get_live_gold_price none file = .error exc) ∧
    (∀ backupData : List JVal, get_backup_gold_data file = .ok backupData →
       (backupData = [] →
          get_live_gold_price none file =
            .ok (.err "Failed to fetch live gold price and backup is unavailable.") ∧
          (GoldPriceResult.err
            "Failed to fetch live gold price and backup is unavailable.").hasCurrentPrice
            = false) ∧
       (∀ entry : JVal, backupData.getLast? = some entry →
          (∀ x ∈ backupData, ∀ kx ke : ℕ,
             keyOf x = .ok kx → keyOf entry = .ok ke → kx ≤ ke) ∧
          ∀ fields : List (String × JVal), entry = .obj fields →
            (∀ p : JVal, fields.lookup "price" = some p →
               get_live_gold_price none file = .ok (.backup p) ∧
               (GoldPriceResult.backup p).sourceTag = some "backup" ∧
               (GoldPriceResult.backup p).hasCurrentPrice = true) ∧
            (fields.lookup "price" = none →
               get_live_gold_price none file = .error .keyError))) := by
  constructor
  · intro exc hexc
    simp [get_live_gold_price, hexc]
  · intro backupData hok
    constructor
    · rintro rfl
      exact ⟨by simp [get_live_gold_price, hok], rfl⟩
    · intro entry hlast
      constructor
      · intro x hx kx ke hkx hke
        exact rel_getLast?_of_pairwise keyRel_refl backupData
          (backup_output_pairwise file backupData hok) entry hlast x hx kx ke hkx hke
      · rintro fields rfl
        constructor
        · intro p hp
          exact ⟨by simp [get_live_gold_price, hok, hlast, hp], rfl, rfl⟩
        · intro hnone
          simp [get_live_gold_price, hok, hlast, hnone]

/-- Witness for the amended C1: a one-entry snapshot whose entry carries a
price, and a missing snapshot file. -/
theorem claim_C1_witness :
    get_live_gold_price none
      (.decoded (.arr [.obj [("date", .str "2024-01-02"), ("price", .num 100)]])) =
      .ok (.backup (.num 100)) ∧
    get_live_gold_price none .missing =
      .ok (.err "Failed to fetch live gold price and backup is unavailable.") := by
  constructor
  · have h := ((((claim_C1_amended_fallback
        (.decoded (.arr [.obj [("date", .str "2024-01-02"), ("price", .num 100)]]))).2
        [.obj [("date", .str "2024-01-02"), ("price", .num 100)]] rfl).2
        (.obj [("date", .str "2024-01-02"), ("price", .num 100)]) rfl).2
        [("date", .str "2024-01-02"), ("price", .num 100)] rfl).1
        (.num 100) rfl
    exact h.1
  · exact (((claim_C1_amended_fallback .missing).2 [] rfl).1 rfl).1

/-- Claim C5 counterexample: the spec example
`classifyIntent("Will gold price rise?") = prediction` fails on the code:
the question contains the substring `price`, which the price-keyword group
matches first (the very precedence the same claim states), so the
classifier returns `current_price`, not `prediction`. -/
theorem claim_C5_counterexample :
    keyword_classify "Will gold price rise?" = "current_price" ∧
    keyword_classify "Will gold price rise?" ≠ "prediction" :=
  ⟨rfl, by decide⟩

/-- Claim C5 (amended): `keyword_classify` matches keyword substrings with
fixed precedence (price terms, then history terms, then prediction terms,
unmatched questions mapping to `general_info`); the price example maps to
`current_price`, the history example to `history`, the unmatched example
to `general_info`, and — amended — "Will gold price rise?" maps to
`current_price` because the price group takes precedence, while a
prediction question without price terms such as "Will gold rise?" maps to
`prediction`. -/
theorem claim_C5_amended_precedence :
    (∀ q : String,
       anyKeyword ["price", "rate", "current", "today"] (lcs q) = true →
       keyword_classify q = "current_price") ∧
    (∀ q : String,
       anyKeyword ["price", "rate", "current", "today"] (lcs q) = false →
       anyKeyword ["history", "past", "last", "trend"] (lcs q) = true →
       keyword_classify q = "history") ∧
    (∀ q : String,
       anyKeyword ["price", "rate", "current", "today"] (lcs q) = false →
       anyKeyword ["history", "past", "last", "trend"] (lcs q) = false →
       anyKeyword ["predict", "forecast", "future", "will"] (lcs q) = true →
       keyword_classify q = "prediction") ∧
    (∀ q : String,
       anyKeyword ["price", "rate", "current", "today"] (lcs q) = false →
       anyKeyword ["history", "past", "last", "trend"] (lcs q) = false →
       anyKeyword ["predict", "forecast", "future", "will"] (lcs q) = false →
       keyword_classify q = "general_info") ∧
    keyword_classify
      ("What" ++ String.singleton (Char.ofNat 39) ++ "s the current price of gold?") =
      "current_price" ∧
    keyword_classify "Show me gold history" = "history" ∧
    keyword_classify "Will gold price rise?" = "current_price" ∧
    keyword_classify "Will gold rise?" = "prediction" ∧
    keyword_classify "Tell me about gold" = "general_info" := by
  refine ⟨?_, ?_, ?_, ?_, rfl, rfl, rfl, rfl, rfl⟩
  · intro q h
    simp [keyword_classify, h]
  · intro q h1 h2
    simp [keyword_classify, h1, h2]
  · intro q h1 h2 h3
    simp [keyword_classify, h1, h2, h3]
  · intro q h1 h2 h3
    simp [keyword_classify, h1, h2, h3]

/-- Witness for the amended C5, instantiating each precedence clause on a
short concrete question. -/
theorem claim_C5_witness :
    keyword_classify "gold rate" = "current_price" ∧
    keyword_classify "gold trend" = "history" ∧
    keyword_classify "gold forecast" = "prediction" ∧
    keyword_classify "about gold" = "general_info" :=
  ⟨claim_C5_amended_precedence.1 "gold rate" (by decide),
   claim_C5_amended_precedence.2.1 "gold trend" (by decide) (by decide),
   claim_C5_amended_precedence.2.2.1 "gold forecast" (by decide) (by decide) (by decide),
   claim_C5_amended_precedence.2.2.2.1 "about gold" (by decide) (by decide) (by decide)⟩

/-- Claim C6: `is_gold_by_keyword` is a case-insensitive whole-word match
on `gold`, `digital gold` or `xau`: the spec's two examples hold, an
uppercase `XAU` matches, and `gold` occurring only inside a longer word
(`goldfish`) does not match. -/
theorem claim_C6_gold_detection :
    is_gold_by_keyword "What is the GOLD rate today?" = true ∧
    is_gold_by_keyword "How is silver doing?" = false ∧
    is_gold_by_keyword "buy XAU now" = true ∧
    is_gold_by_keyword "He sold his goldfish" = false ∧
    is_gold_by_keyword "digital gold is pure" = true :=
  ⟨rfl, rfl, rfl, rfl, rfl⟩

/-- Claim C7: `trend_phrase` renders a change above 0.1 as "increased by"
with two decimals, below -0.1 as "decreased by" with the absolute value,
and anything in between as "been relatively stable"; and for every
non-empty series `generate_trend_text` composes the 7-day phrase and the
30-day phrase (the window falling back to the series length when it has
fewer than 30 points). -/
theorem claim_C7_trend_text :
    (∀ c : ℚ,
       (1/10 < c → trend_phrase c = "increased by " ++ format2 c ++ "%") ∧
       (c < -(1/10) → trend_phrase c = "decreased by " ++ format2 |c| ++ "%") ∧
       (-(1/10) ≤ c → c ≤ 1/10 → trend_phrase c = "been relatively stable")) ∧
    (∀ history : List PricePoint, history ≠ [] →
       generate_trend_text history =
         "Gold prices have " ++ trend_phrase (analyze_trend history 7) ++
         " over the last 7 days and have " ++
         trend_phrase
           (analyze_trend history
             (if 30 ≤ history.length then 30 else history.length)) ++
         " over the last 30 days.") := by
  constructor
  · intro c
    refine ⟨?_, ?_, ?_⟩
    · intro h
      simp only [trend_phrase, if_pos h]
    · intro h
      have h2 : ¬ ((1:ℚ)/10 < c) := by linarith
      simp only [trend_phrase, if_neg h2, if_pos h]
    · intro h1 h2
      have g1 : ¬ ((1:ℚ)/10 < c) := by linarith
      have g2 : ¬ (c < -(1/10)) := by linarith
      simp only [trend_phrase, if_neg g1, if_neg g2]
  · intro history hne
    simp [generate_trend_text, hne]

/-- Witness for C7 on the three threshold regimes and a one-point
series. -/
theorem claim_C7_witness :
    trend_phrase 5 = "increased by " ++ format2 5 ++ "%" ∧
    trend_phrase (-5) = "decreased by " ++ format2 |(-5 : ℚ)| ++ "%" ∧
    trend_phrase 0 = "been relatively stable" ∧
    generate_trend_text [⟨1, 100⟩] =
      "Gold prices have " ++ trend_phrase (analyze_trend [⟨1, 100⟩] 7) ++
      " over the last 7 days and have " ++
      trend_phrase
        (analyze_trend [⟨1, 100⟩]
          (if 30 ≤ ([⟨1, 100⟩] : List PricePoint).length then 30
           else ([⟨1, 100⟩] : List PricePoint).length)) ++
      " over the last 30 days." :=
  ⟨(claim_C7_trend_text.1 5).1 (by norm_num),
   (claim_C7_trend_text.1 (-5)).2.1 (by norm_num),
   (claim_C7_trend_text.1 0).2.2 (by norm_num) (by norm_num),
   claim_C7_trend_text.2 [⟨1, 100⟩] (by simp)⟩

/-- Claim C8 counterexample: the request with `nudge_to_invest = true`,
`amount_inr = 1000` and `quoted_price_inr_per_gram = 0` passes both
validation checks, yet the endpoint does not return `success = true`: the
grams division raises `ZeroDivisionError`, refuting "for every request
passing both checks it returns success = true". -/
theorem claim_C8_counterexample :
    (⟨"Ada", "ada@example.com", 1000, 0, true⟩ : PurchaseRequest).nudge_to_invest = true ∧
    ¬ (⟨"Ada", "ada@example.com", 1000, 0, true⟩ : PurchaseRequest).amount_inr < 10 ∧
    (buy_digital_gold ⟨[], []⟩ ⟨"Ada", "ada@example.com", 1000, 0, true⟩).2 =
      .error .zeroDivisionError := by
  refine ⟨rfl, by norm_num, ?_⟩
  norm_num [buy_digital_gold]

/-- Claim C8 (amended): `buy_digital_gold` rejects with HTTP 400 every
request with `nudge_to_invest = false` and every request with
`amount_inr < 10`, leaving the store untouched on such a rejection; and
every request passing both checks whose quoted price is nonzero returns
`success = true`. -/
theorem claim_C8_amended_validation (db : DBState) (req : PurchaseRequest) :
    (req.nudge_to_invest = false →
       buy_digital_gold db req =
         (db, .error (.httpError 400 "Nudge flag is false. Purchase not allowed"))) ∧
    (req.amount_inr < 10 →
       ∃ d : String, buy_digital_gold db req = (db, .error (.httpError 400 d))) ∧
    (req.nudge_to_invest = true → ¬ req.amount_inr < 10 →
       req.quoted_price_inr_per_gram ≠ 0 →
       ∃ resp : PurchaseResponse,
         (buy_digital_gold db req).2 = .ok resp ∧ resp.success = true) := by
  refine ⟨?_, ?_, ?_⟩
  · intro h
    simp [buy_digital_gold, h]
  · intro h
    by_cases hn : req.nudge_to_invest = false
    · exact ⟨"Nudge flag is false. Purchase not allowed", by simp [buy_digital_gold, hn]⟩
    · exact ⟨"Minimum purchase is ₹10", by simp [buy_digital_gold, hn, h]⟩
  · intro h1 h2 h3
    cases hf : findUserByEmail db req.user_email with
    | none => simp [buy_digital_gold, h1, h2, h3, hf]
    | some u => simp [buy_digital_gold, h1, h2, h3, hf]

/-- Witness for the amended C8: a nudge-refused request, an under-minimum
request, and a valid request, each on the empty store. -/
theorem claim_C8_witness :
    buy_digital_gold ⟨[], []⟩ ⟨"Eve", "eve@example.com", 500, 6000, false⟩ =
      (⟨[], []⟩, .error (.httpError 400 "Nudge flag is false. Purchase not allowed")) ∧
    (∃ d : String,
       buy_digital_gold ⟨[], []⟩ ⟨"Eve", "eve@example.com", 5, 6000, true⟩ =
         (⟨[], []⟩, .error (.httpError 400 d))) ∧
    (∃ resp : PurchaseResponse,
       (buy_digital_gold ⟨[], []⟩ ⟨"Eve", "eve@example.com", 500, 6000, true⟩).2 =
         .ok resp ∧ resp.success = true) :=
  ⟨(claim_C8_amended_validation ⟨[], []⟩ ⟨"Eve", "eve@example.com", 500, 6000, false⟩).1 rfl,
   (claim_C8_amended_validation ⟨[], []⟩ ⟨"Eve", "eve@example.com", 5, 6000, true⟩).2.1
     (by norm_num),
   (claim_C8_amended_validation ⟨[], []⟩ ⟨"Eve", "eve@example.com", 500, 6000, true⟩).2.2
     rfl (by norm_num) (by norm_num)⟩

/-- Claim C9: every accepted purchase computes
`grams = round(amount / quoted_price, 4)`, appends exactly one transaction
row storing those grams and the quoted price rounded to 2 decimals; and
`round(1000 / 6000, 4) = 0.1667`. -/
theorem claim_C9_purchase_arithmetic :
    (∀ (db : DBState) (req : PurchaseRequest) (resp : PurchaseResponse),
       (buy_digital_gold db req).2 = .ok resp →
       resp.grams_purchased = pyRound 4 (req.amount_inr / req.quoted_price_inr_per_gram) ∧
       ∃ tx : Transaction,
         (buy_digital_gold db req).1.transactions = db.transactions ++ [tx] ∧
         tx.grams_purchased = pyRound 4 (req.amount_inr / req.quoted_price_inr_per_gram) ∧
         tx.gold_price_per_gram = pyRound 2 req.quoted_price_inr_per_gram) ∧
    pyRound 4 ((1000 : ℚ) / 6000) = 1667 / 10000 := by
  constructor
  · intro db req resp h
    by_cases h1 : req.nudge_to_invest = false
    · simp [buy_digital_gold, h1] at h
    · by_cases h2 : req.amount_inr < 10
      · simp [buy_digital_gold, h1, h2] at h
      · by_cases h3 : req.quoted_price_inr_per_gram = 0
        · simp [buy_digital_gold, h1, h2, h3] at h
        · cases hf : findUserByEmail db req.user_email with
          | none =>
            simp [buy_digital_gold, h1, h2, h3, hf] at h ⊢
            subst h
            rfl
          | some u =>
            simp [buy_digital_gold, h1, h2, h3, hf] at h ⊢
            subst h
            rfl
  · norm_num [pyRound, roundHalfEven]

/-- Witness for C9 at the spec's concrete purchase on the empty store. -/
theorem claim_C9_witness :
    (⟨true, purchaseMessage (pyRound 4 ((1000 : ℚ) / 6000)), 1,
        pyRound 4 ((1000 : ℚ) / 6000)⟩ : PurchaseResponse).grams_purchased =
      (1667 : ℚ) / 10000 := by
  have h0 : (buy_digital_gold ⟨[], []⟩
      ⟨"Ada", "ada@example.com", 1000, 6000, true⟩).2 =
      .ok ⟨true, purchaseMessage (pyRound 4 ((1000 : ℚ) / 6000)), 1,
        pyRound 4 ((1000 : ℚ) / 6000)⟩ := by
    norm_num [buy_digital_gold, findUserByEmail, nextTxId, nextUserId]
  have h1 := (claim_C9_purchase_arithmetic.1 ⟨[], []⟩
    ⟨"Ada", "ada@example.com", 1000, 6000, true⟩ _ h0).1
  calc (⟨true, purchaseMessage (pyRound 4 ((1000 : ℚ) / 6000)), 1,
          pyRound 4 ((1000 : ℚ) / 6000)⟩ : PurchaseResponse).grams_purchased
      = pyRound 4 ((1000 : ℚ) / 6000) := h1
    _ = (1667 : ℚ) / 10000 := claim_C9_purchase_arithmetic.2

/-- Claim C10: the request with an accepted nudge, amount above the
minimum, and a quoted price of zero passes every validation check, and the
unguarded grams division then divides by zero (in Python an uncaught
`ZeroDivisionError`). -/
theorem claim_C10_unguarded_division :
    (⟨"Bob", "bob@example.com", 50, 0, true⟩ : PurchaseRequest).nudge_to_invest = true ∧
    10 ≤ (⟨"Bob", "bob@example.com", 50, 0, true⟩ : PurchaseRequest).amount_inr ∧
    (⟨"Bob", "bob@example.com", 50, 0, true⟩ : PurchaseRequest).quoted_price_inr_per_gram = 0 ∧
    buy_digital_gold ⟨[], []⟩ ⟨"Bob", "bob@example.com", 50, 0, true⟩ =
      (⟨[], []⟩, .error .zeroDivisionError) := by
  refine ⟨rfl, by norm_num, rfl, ?_⟩
  norm_num [buy_digital_gold]

end KuberAI
